import Mathlib

/-!
# Verification of the article-generation workflow

Shallow embedding of the repository's generative-AI service layer
(`services/geminiService.ts`: `generateKidArticle`, `generateImage`,
`editImage`, `getQuickResponse`) and the UI entry point
`handleGenerateArticle` from `App.tsx`.

The remote generative-AI service (`ai.models.generateContent`) is external
nondeterminism: each invocation's outcome is supplied by an environment
record (`Env`, `SimpleEnv`, `QuickEnv`).  The builtin `JSON.parse` is
likewise modelled by the environment: the text reply carries both the raw
response string (`TextReply.text`) and the outcome of parsing it as an
array of `{ paragraph: string }` objects (`TextReply.parsed`, `none` when
`JSON.parse` throws or the parsed value is not an array).  Concrete
environments used in witnesses supply parse outcomes consistent with real
`JSON.parse` on the given raw string.

JavaScript string primitives used by the code (`split('\n')`,
`trim()`) are embedded as structurally recursive Lean functions so that
every definition evaluates inside the kernel.
-/

/-- ECMA-262 WhiteSpace / LineTerminator predicate, the character class
removed by JavaScript `String.prototype.trim`. -/
def jsWhitespace (c : Char) : Bool :=
  c.toNat = 9 ∨ c.toNat = 10 ∨ c.toNat = 11 ∨ c.toNat = 12 ∨ c.toNat = 13 ∨
  c.toNat = 32 ∨ c.toNat = 160 ∨ c.toNat = 0x1680 ∨
  (0x2000 ≤ c.toNat ∧ c.toNat ≤ 0x200A) ∨ c.toNat = 0x2028 ∨
  c.toNat = 0x2029 ∨ c.toNat = 0x202F ∨ c.toNat = 0x205F ∨
  c.toNat = 0x3000 ∨ c.toNat = 0xFEFF

/-- JavaScript `String.prototype.trim`: drop leading and trailing
whitespace. -/
def jsTrim (s : String) : String :=
  String.mk (((s.toList.dropWhile jsWhitespace).reverse.dropWhile jsWhitespace).reverse)

/-- Split a character list on every occurrence of `c`; consecutive
separators and boundary separators produce empty segments, matching
JavaScript `String.prototype.split` with a one-character separator. -/
def splitCharsOn (c : Char) : List Char → List (List Char)
  | [] => [[]]
  | a :: rest =>
    if a = c then [] :: splitCharsOn c rest
    else
      match splitCharsOn c rest with
      | [] => [[a]]
      | g :: gs => (a :: g) :: gs

/-- JavaScript `jsonString.split('\n')`. -/
def jsSplitNewline (s : String) : List String :=
  (splitCharsOn (Char.ofNat 10) s.toList).map (fun cs => String.mk cs)

/-- `interface ArticleParagraph` from `types.ts`. -/
structure ArticleParagraph where
  text : String
  imageUrl : String
deriving DecidableEq, Repr

/-- `enum ImageSize` from `types.ts`. -/
inductive ImageSize where
  | size1K
  | size2K
  | size4K
deriving DecidableEq, Repr

/-- Inline image payload (`inlineData` of a response part). -/
structure InlineData where
  mimeType : String
  data : String
deriving DecidableEq, Repr

/-- One part of a `generateContent` response candidate; only the presence
or absence of `inlineData` is inspected by the code. -/
structure ImagePart where
  inlineData : Option InlineData
deriving DecidableEq, Repr

/-- Outcome of one image-model `generateContent` call: either the call
throws (`fail`, transport/service error with the error message), or it
returns a response whose `candidates?.[0]?.content?.parts` is either
missing (`ok none`) or a list of parts (`ok (some parts)`). -/
inductive ImageOutcome where
  | fail (msg : String)
  | ok (parts : Option (List ImagePart))
deriving DecidableEq, Repr

/-- Outcome of a successful text-model `generateContent` call: `text` is
`response.text` (the empty string models an absent/empty text), `parsed`
is the result of `JSON.parse(text)` viewed as an array of
`{ paragraph: string }` objects — `none` when parsing throws or the
value is not an array, `some ps` with `ps` the `paragraph` fields
otherwise. -/
structure TextReply where
  text : String
  parsed : Option (List String)
deriving DecidableEq, Repr

/-- Environment of one `generateKidArticle` invocation: the configured
credential (`process.env.API_KEY`; `none` = unset), the outcome of the
text-phase call, and the outcome of the `i`-th image-phase call. -/
structure Env where
  apiKey : Option String
  textCall : Except String TextReply
  imageCall : Nat → ImageOutcome

/-- JavaScript falsiness of `process.env.API_KEY`: the guard
`!process.env.API_KEY` fires when the variable is unset or empty. -/
def keyMissing : Option String → Bool
  | none => true
  | some s => s = ""

/-- The configuration error thrown by every service function when the
credential is missing. -/
def configErrorMessage : String :=
  "API_KEY environment variable is not set. Please configure your API key."

/-- The placeholder image reference substituted when the image call for a
paragraph throws (line 277). -/
def failurePlaceholder : String := "https://picsum.photos/400/400?grayscale"

/-- The default placeholder kept when the image call succeeds but carries
no inline image payload (line 282). -/
def missingPayloadPlaceholder : String := "https://picsum.photos/400/400?blur=2"

/-- Build the data URL from an inline payload
(`data:${mimeType};base64,${data}`, lines 288-289). -/
def dataUrl (d : InlineData) : String :=
  "data:" ++ d.mimeType ++ ";base64," ++ d.data

/-- One iteration of the per-paragraph image loop (lines 254-298):
on a thrown image call push the failure placeholder; otherwise find the
first response part carrying `inlineData` and build a data URL from it,
defaulting to the missing-payload placeholder. -/
def imageStep (env : Env) (i : Nat) (p : String) : ArticleParagraph :=
  match env.imageCall i with
  | .fail _ => { text := p, imageUrl := failurePlaceholder }
  | .ok parts =>
    match (parts.getD []).find? (fun part => part.inlineData.isSome) with
    | some part =>
      match part.inlineData with
      | some d => { text := p, imageUrl := dataUrl d }
      | none => { text := p, imageUrl := missingPayloadPlaceholder }
    | none => { text := p, imageUrl := missingPayloadPlaceholder }

/-- The sequential image loop over the validated paragraphs, issuing the
`i`-th image call for the `i`-th paragraph and never aborting. -/
def imageLoop (env : Env) : Nat → List String → List ArticleParagraph
  | _, [] => []
  | i, p :: rest => imageStep env i p :: imageLoop env (i + 1) rest

/-- The fallback heuristic of the catch block (lines 244-245): split the
raw response on newlines, keep the lines that are non-empty after
trimming, and apply `slice(0, Math.max(5, lines.length))`. -/
def fallbackParagraphs (jsonString : String) : List String :=
  let lines := (jsSplitNewline jsonString).filter (fun line => 0 < (jsTrim line).length)
  lines.take (max 5 lines.length)

/-- The catch block (lines 240-249): fallback-split the raw response and
fail when fewer than 5 paragraphs result. -/
def fallbackResult (jsonString : String) : Except String (List String) :=
  if (fallbackParagraphs jsonString).length < 5 then
    .error ("Failed to parse article text or generate enough paragraphs. Raw response: " ++ jsonString)
  else .ok (fallbackParagraphs jsonString)

/-- Validation of a successful text call (lines 229-249): reject an empty
response text, then accept a parsed array of at least 5 paragraphs.  Note
that the `throw` on a successfully parsed array of fewer than 5 elements
(line 238) sits inside the `try` whose `catch` applies the fallback, so
that case reaches `fallbackResult` just like a parse failure. -/
def textPhaseReply (reply : TextReply) : Except String (List String) :=
  if reply.text = "" then .error "Failed to get article text from Gemini API."
  else
    match reply.parsed with
    | some ps => if ps.length < 5 then fallbackResult reply.text else .ok ps
    | none => fallbackResult reply.text

/-- The text phase of `generateKidArticle` (lines 190-249), producing the
validated paragraph list `paragraphsData` or the thrown error. -/
def textPhase (env : Env) : Except String (List String) :=
  if keyMissing env.apiKey then .error configErrorMessage
  else
    match env.textCall with
    | .error msg =>
      .error ("Could not generate article text. Please try a different topic. " ++ msg)
    | .ok reply => textPhaseReply reply

instance instDecidableEqExcept {ε α : Type} [DecidableEq ε] [DecidableEq α] :
    DecidableEq (Except ε α) := fun a b =>
  match a, b with
  | .error x, .error y =>
    if h : x = y then isTrue (by rw [h])
    else isFalse (by intro hc; injection hc with h1; exact h h1)
  | .ok x, .ok y =>
    if h : x = y then isTrue (by rw [h])
    else isFalse (by intro hc; injection hc with h1; exact h h1)
  | .error _, .ok _ => isFalse (fun hc => Except.noConfusion hc)
  | .ok _, .error _ => isFalse (fun hc => Except.noConfusion hc)

/-- Instrumented run of `generateKidArticle`: the returned value or thrown
error, together with how many remote text calls and remote image calls the
run issued. -/
structure RunResult where
  result : Except String (List ArticleParagraph)
  textCalls : Nat
  imageCalls : Nat
deriving DecidableEq, Repr

/-- `generateKidArticle` (lines 189-301), instrumented with remote-call
counts: one text call is issued unless the credential guard fires, and one
image call is issued per validated paragraph. -/
def generateKidArticleRun (env : Env) (topic : String) : RunResult :=
  match textPhase env with
  | .error msg => ⟨.error msg, if keyMissing env.apiKey then 0 else 1, 0⟩
  | .ok pd => ⟨.ok (imageLoop env 0 pd), 1, pd.length⟩

/-- `generateKidArticle` (lines 189-301): the promise's resolution
(`.ok`) or rejection (`.error`). -/
def generateKidArticle (env : Env) (topic : String) : Except String (List ArticleParagraph) :=
  (generateKidArticleRun env topic).result

/-- Outcome of `handleGenerateArticle` on the App state: either
`setArticle` ran with a generated article or `setError` ran with a
message. -/
inductive HandleOutcome where
  | articleSet (article : List ArticleParagraph)
  | errorSet (message : String)
deriving DecidableEq, Repr

/-- Instrumented run of `handleGenerateArticle`. -/
structure HandleRun where
  outcome : HandleOutcome
  textCalls : Nat
  imageCalls : Nat
deriving DecidableEq, Repr

/-- `handleGenerateArticle` (App.tsx lines 67-89): reject a topic that is
empty after trimming before calling the service; otherwise surface the
service's result or its error message. -/
def handleGenerateArticleRun (env : Env) (topic : String) : HandleRun :=
  if jsTrim topic = "" then
    ⟨.errorSet "Please enter a current event topic to generate an article.", 0, 0⟩
  else
    let r := generateKidArticleRun env topic
    match r.result with
    | .ok a => ⟨.articleSet a, r.textCalls, r.imageCalls⟩
    | .error m =>
      ⟨.errorSet ("Failed to generate article: " ++ (if m = "" then "An unknown error occurred." else m)),
        r.textCalls, r.imageCalls⟩

/-- Environment of one standalone image call (`generateImage` or
`editImage`): the credential and the single call's outcome. -/
structure SimpleEnv where
  apiKey : Option String
  call : ImageOutcome

/-- `generateImage` (lines 310-346), instrumented with the remote-call
count.  The `throw` on a missing payload (line 340) sits inside the `try`,
so its message is re-wrapped by the catch like a transport error. -/
def generateImageRun (env : SimpleEnv) (prompt : String) (imageSize : ImageSize) :
    Except String String × Nat :=
  if keyMissing env.apiKey then (.error configErrorMessage, 0)
  else
    match env.call with
    | .fail msg => (.error ("Failed to generate image: " ++ msg), 1)
    | .ok parts =>
      match (parts.getD []).find? (fun part => part.inlineData.isSome) with
      | some part =>
        match part.inlineData with
        | some d => (.ok (dataUrl d), 1)
        | none => (.error ("Failed to generate image: " ++ "No image data found in the response."), 1)
      | none => (.error ("Failed to generate image: " ++ "No image data found in the response."), 1)

/-- `editImage` (lines 355-391), instrumented with the remote-call
count. -/
def editImageRun (env : SimpleEnv) (originalImageBase64Data : String)
    (originalImageMimeType : String) (editPrompt : String) :
    Except String String × Nat :=
  if keyMissing env.apiKey then (.error configErrorMessage, 0)
  else
    match env.call with
    | .fail msg => (.error ("Failed to edit image: " ++ msg), 1)
    | .ok parts =>
      match (parts.getD []).find? (fun part => part.inlineData.isSome) with
      | some part =>
        match part.inlineData with
        | some d => (.ok (dataUrl d), 1)
        | none => (.error ("Failed to edit image: " ++ "No edited image data found in the response."), 1)
      | none => (.error ("Failed to edit image: " ++ "No edited image data found in the response."), 1)

/-- Environment of one `getQuickResponse` call: the credential and the
call's outcome (`.ok t` with `t` the `response.text`, the empty string
modelling an absent/empty text). -/
structure QuickEnv where
  apiKey : Option String
  call : Except String String

/-- The fixed fallback string returned by `getQuickResponse` on an empty
response text (line 414). -/
def quickFallback : String :=
  "Oops! I tried to think of a fun fact, but my wires got a bit tangled!"

/-- `getQuickResponse` (lines 398-419), instrumented with the remote-call
count: `response.text || fallback` on success, a re-wrapped error on a
thrown call. -/
def getQuickResponseRun (env : QuickEnv) (prompt : String) :
    Except String String × Nat :=
  if keyMissing env.apiKey then (.error configErrorMessage, 0)
  else
    match env.call with
    | .error msg => (.error ("Failed to get quick response: " ++ msg), 1)
    | .ok t => (.ok (if t = "" then quickFallback else t), 1)

/-! ## Helper lemmas -/

theorem imageLoop_length (env : Env) (i : Nat) (pd : List String) :
    (imageLoop env i pd).length = pd.length := by
  induction pd generalizing i with
  | nil => rfl
  | cons p rest ih => simp [imageLoop, ih]

theorem imageStep_text (env : Env) (i : Nat) (p : String) :
    (imageStep env i p).text = p := by
  unfold imageStep
  split
  · rfl
  · split
    · split
      · rfl
      · rfl
    · rfl

theorem imageLoop_map_text (env : Env) (i : Nat) (pd : List String) :
    (imageLoop env i pd).map ArticleParagraph.text = pd := by
  induction pd generalizing i with
  | nil => rfl
  | cons p rest ih => simp [imageLoop, imageStep_text, ih]

theorem imageLoop_getElem? (env : Env) (i k : Nat) (pd : List String) :
    (imageLoop env i pd)[k]? = pd[k]?.map (fun p => imageStep env (i + k) p) := by
  induction pd generalizing i k with
  | nil => simp [imageLoop]
  | cons p rest ih =>
    cases k with
    | zero => simp [imageLoop]
    | succ k =>
      simp only [imageLoop, List.getElem?_cons_succ, ih (i + 1) k]
      have harith : i + 1 + k = i + (k + 1) := by omega
      rw [harith]

theorem dataUrl_ne_empty (d : InlineData) : dataUrl d ≠ "" := by
  intro h
  have hlen := congrArg String.length h
  simp only [dataUrl, String.length_append] at hlen
  have h5 : "data:".length = 5 := rfl
  have h8 : ";base64,".length = 8 := rfl
  have h0 : "".length = 0 := rfl
  rw [h5, h8, h0] at hlen
  omega

theorem imageStep_imageUrl_ne_empty (env : Env) (i : Nat) (p : String) :
    (imageStep env i p).imageUrl ≠ "" := by
  unfold imageStep
  split
  · exact (by decide : failurePlaceholder ≠ "")
  · split
    · split
      · exact dataUrl_ne_empty _
      · exact (by decide : missingPayloadPlaceholder ≠ "")
    · exact (by decide : missingPayloadPlaceholder ≠ "")

theorem imageLoop_imageUrl_ne_empty (env : Env) (i : Nat) (pd : List String) :
    ∀ a ∈ imageLoop env i pd, a.imageUrl ≠ "" := by
  induction pd generalizing i with
  | nil => intro a ha; cases ha
  | cons p rest ih =>
    intro a ha
    cases ha with
    | head => exact imageStep_imageUrl_ne_empty env i p
    | tail _ hmem => exact ih (i + 1) a hmem

theorem fallbackResult_ok_length (jsonString : String) (pd : List String)
    (h : fallbackResult jsonString = .ok pd) : 5 ≤ pd.length := by
  unfold fallbackResult at h
  split at h
  · cases h
  · cases h
    omega

theorem textPhaseReply_ok_length (reply : TextReply) (pd : List String)
    (h : textPhaseReply reply = .ok pd) : 5 ≤ pd.length := by
  unfold textPhaseReply at h
  split at h
  · cases h
  · split at h
    · split at h
      · exact fallbackResult_ok_length reply.text pd h
      · cases h
        omega
    · exact fallbackResult_ok_length reply.text pd h

theorem textPhase_ok_inv (env : Env) (pd : List String)
    (h : textPhase env = .ok pd) :
    keyMissing env.apiKey = false ∧
      ∃ reply, env.textCall = .ok reply ∧ textPhaseReply reply = .ok pd := by
  unfold textPhase at h
  split at h
  · cases h
  · rename_i hkey
    revert h
    cases hc : env.textCall with
    | error msg => intro h; cases h
    | ok reply => intro h; exact ⟨by simpa using hkey, reply, rfl, h⟩

theorem textPhase_ok_length (env : Env) (pd : List String)
    (h : textPhase env = .ok pd) : 5 ≤ pd.length := by
  obtain ⟨-, reply, -, hr⟩ := textPhase_ok_inv env pd h
  exact textPhaseReply_ok_length reply pd hr

theorem generateKidArticleRun_of_textPhase_ok (env : Env) (topic : String)
    (pd : List String) (h : textPhase env = .ok pd) :
    generateKidArticleRun env topic = ⟨.ok (imageLoop env 0 pd), 1, pd.length⟩ := by
  unfold generateKidArticleRun
  rw [h]

theorem generateKidArticle_ok_inv (env : Env) (topic : String)
    (arts : List ArticleParagraph) (h : generateKidArticle env topic = .ok arts) :
    ∃ pd, textPhase env = .ok pd ∧ arts = imageLoop env 0 pd := by
  unfold generateKidArticle generateKidArticleRun at h
  revert h
  cases htp : textPhase env with
  | error msg => intro h; cases h
  | ok pd => intro h; cases h; exact ⟨pd, rfl, rfl⟩

theorem fallbackParagraphs_eq (jsonString : String) :
    fallbackParagraphs jsonString =
      (jsSplitNewline jsonString).filter (fun line => 0 < (jsTrim line).length) := by
  unfold fallbackParagraphs
  exact List.take_of_length_le (Nat.le_max_right 5 _)

/-! ## Concrete environments used by witnesses and counterexamples -/

/-- A run where the text call returns 5 parsed paragraphs and every image
call returns an inline payload. -/
def envAllOk : Env :=
  { apiKey := some "k"
    textCall := .ok { text := "json", parsed := some ["a", "b", "c", "d", "e"] }
    imageCall := fun _ =>
      .ok (some [{ inlineData := some { mimeType := "image/png", data := "QUJD" } }]) }

/-- The article `envAllOk` produces. -/
def artsAllOk : List ArticleParagraph :=
  ["a", "b", "c", "d", "e"].map
    (fun p => { text := p, imageUrl := "data:image/png;base64,QUJD" })

/-- A run where the image call for paragraph 2 throws and all others
return an inline payload. -/
def envOneFail : Env :=
  { apiKey := some "k"
    textCall := .ok { text := "json", parsed := some ["a", "b", "c", "d", "e"] }
    imageCall := fun i =>
      if i = 2 then .fail "network unreachable"
      else .ok (some [{ inlineData := some { mimeType := "image/png", data := "QUJD" } }]) }

/-- A run where the image call for paragraph 1 succeeds with an empty part
list (no inline payload) and all others return an inline payload. -/
def envOneMissing : Env :=
  { apiKey := some "k"
    textCall := .ok { text := "json", parsed := some ["a", "b", "c", "d", "e"] }
    imageCall := fun i =>
      if i = 1 then .ok (some [])
      else .ok (some [{ inlineData := some { mimeType := "image/png", data := "QUJD" } }]) }

/-- A run where the text response is not parseable JSON but has 5
non-empty lines. -/
def envFallbackOk : Env :=
  { apiKey := some "k"
    textCall := .ok { text := "one\ntwo\nthree\nfour\nfive", parsed := none }
    imageCall := fun _ => .fail "network unreachable" }

/-- A run where the text call succeeds but `response.text` is empty. -/
def envEmptyText : Env :=
  { apiKey := some "k"
    textCall := .ok { text := "", parsed := none }
    imageCall := fun _ => .fail "network unreachable" }

/-- An article-generation environment with no configured credential. -/
def envNoKeyA : Env :=
  { apiKey := none
    textCall := .ok { text := "json", parsed := some ["a", "b", "c", "d", "e"] }
    imageCall := fun _ => .fail "never reached" }

/-- A standalone-image environment with no configured credential. -/
def envNoKeyI : SimpleEnv :=
  { apiKey := none
    call := .ok (some [{ inlineData := some { mimeType := "image/png", data := "QUJD" } }]) }

/-- An image-editing environment with no configured credential. -/
def envNoKeyE : SimpleEnv :=
  { apiKey := none
    call := .ok (some [{ inlineData := some { mimeType := "image/png", data := "QUJD" } }]) }

/-- A quick-answer environment with no configured credential. -/
def envNoKeyQ : QuickEnv :=
  { apiKey := none
    call := .ok "a fun fact" }

/-- A quick-answer environment whose call returns non-empty text. -/
def envQuickOk : QuickEnv :=
  { apiKey := some "k"
    call := .ok "Bees can dance!" }

/-- The raw text response of the C2 failing input: valid JSON that
`JSON.parse` turns into an array of 3 `paragraph` objects, pretty-printed
across 5 non-empty lines. -/
def rawShortArray : String :=
  "[\n\x7b\"paragraph\": \"a\"\x7d,\n\x7b\"paragraph\": \"b\"\x7d,\n\x7b\"paragraph\": \"c\"\x7d\n]"

/-- A run whose text response parses successfully as an array of only 3
paragraphs (consistent with `JSON.parse` on `rawShortArray`), with every
image call throwing. -/
def envShortArray : Env :=
  { apiKey := some "k"
    textCall := .ok { text := rawShortArray, parsed := some ["a", "b", "c"] }
    imageCall := fun _ => .fail "network unreachable" }

/-! ## Claim theorems -/

/-- C1: whenever `generateKidArticle` succeeds, the returned list has
exactly one `ArticleParagraph` per paragraph produced by the text phase
(parsed or fallback-split), in the same order, its length is at least 5,
and every entry carries a non-empty image reference — never a partial or
reordered list. -/
theorem generateKidArticle_complete_structure (env : Env) (topic : String)
    (arts : List ArticleParagraph)
    (h : generateKidArticle env topic = .ok arts) :
    ∃ pd, textPhase env = .ok pd ∧
      arts.map ArticleParagraph.text = pd ∧
      arts.length = pd.length ∧
      5 ≤ arts.length ∧
      ∀ a ∈ arts, a.imageUrl ≠ "" := by
  obtain ⟨pd, htp, harts⟩ := generateKidArticle_ok_inv env topic arts h
  subst harts
  refine ⟨pd, htp, imageLoop_map_text env 0 pd, imageLoop_length env 0 pd, ?_,
    imageLoop_imageUrl_ne_empty env 0 pd⟩
  rw [imageLoop_length]
  exact textPhase_ok_length env pd htp

/-- Witness for C1 at a concrete successful run. -/
theorem generateKidArticle_complete_structure_witness :
    generateKidArticle envAllOk "dinosaurs" = .ok artsAllOk ∧
    ∃ pd, textPhase envAllOk = .ok pd ∧
      artsAllOk.map ArticleParagraph.text = pd ∧
      artsAllOk.length = pd.length ∧
      5 ≤ artsAllOk.length ∧
      ∀ a ∈ artsAllOk, a.imageUrl ≠ "" :=
  ⟨rfl, generateKidArticle_complete_structure envAllOk "dinosaurs" artsAllOk rfl⟩

/-- C10: the image phase never modifies paragraph text — whatever each
paragraph's image call does, the `i`-th returned entry's `text` is exactly
the `i`-th paragraph produced by the text phase. -/
theorem image_phase_preserves_text (env : Env) (topic : String)
    (pd : List String) (h : textPhase env = .ok pd) :
    ∃ arts, generateKidArticle env topic = .ok arts ∧
      arts.map ArticleParagraph.text = pd := by
  refine ⟨imageLoop env 0 pd, ?_, imageLoop_map_text env 0 pd⟩
  unfold generateKidArticle
  rw [generateKidArticleRun_of_textPhase_ok env topic pd h]

/-- Witness for C10 at a concrete run mixing failed, payload-less and
successful image calls. -/
theorem image_phase_preserves_text_witness :
    textPhase envOneMissing = .ok ["a", "b", "c", "d", "e"] ∧
    ∃ arts, generateKidArticle envOneMissing "space" = .ok arts ∧
      arts.map ArticleParagraph.text = ["a", "b", "c", "d", "e"] :=
  ⟨rfl, image_phase_preserves_text envOneMissing "space" ["a", "b", "c", "d", "e"] rfl⟩

/-- C3: a thrown image call for paragraph `k` does not abort the batch:
the run still succeeds, the result keeps one entry per paragraph, and
entry `k` carries the failure placeholder. -/
theorem image_failure_recovered (env : Env) (topic : String)
    (pd : List String) (k : Nat) (msg : String)
    (hpd : textPhase env = .ok pd) (hk : k < pd.length)
    (hfail : env.imageCall k = .fail msg) :
    ∃ arts, generateKidArticle env topic = .ok arts ∧
      arts.length = pd.length ∧
      arts[k]? = pd[k]?.map (fun p => { text := p, imageUrl := failurePlaceholder }) := by
  refine ⟨imageLoop env 0 pd, ?_, imageLoop_length env 0 pd, ?_⟩
  · unfold generateKidArticle
    rw [generateKidArticleRun_of_textPhase_ok env topic pd hpd]
  · rw [imageLoop_getElem?, Nat.zero_add]
    cases hgk : pd[k]? with
    | none => rfl
    | some p => simp [imageStep, hfail]

/-- Witness for C3: image call 2 throws, the batch still completes with
the failure placeholder at index 2. -/
theorem image_failure_recovered_witness :
    textPhase envOneFail = .ok ["a", "b", "c", "d", "e"] ∧
    2 < (["a", "b", "c", "d", "e"] : List String).length ∧
    envOneFail.imageCall 2 = .fail "network unreachable" ∧
    ∃ arts, generateKidArticle envOneFail "space" = .ok arts ∧
      arts.length = (["a", "b", "c", "d", "e"] : List String).length ∧
      arts[2]? = (["a", "b", "c", "d", "e"] : List String)[2]?.map
        (fun p => { text := p, imageUrl := failurePlaceholder }) :=
  ⟨rfl, by decide, rfl,
    image_failure_recovered envOneFail "space" ["a", "b", "c", "d", "e"] 2
      "network unreachable" rfl (by decide) rfl⟩

/-- C4: an image call for paragraph `k` that succeeds without an inline
payload yields the missing-payload placeholder at entry `k`, and that
placeholder differs from the failure placeholder. -/
theorem image_missing_payload_placeholder (env : Env) (topic : String)
    (pd : List String) (k : Nat) (parts : Option (List ImagePart))
    (hpd : textPhase env = .ok pd) (hk : k < pd.length)
    (hok : env.imageCall k = .ok parts)
    (hfind : (parts.getD []).find? (fun part => part.inlineData.isSome) = none) :
    (∃ arts, generateKidArticle env topic = .ok arts ∧
      arts.length = pd.length ∧
      arts[k]? = pd[k]?.map (fun p => { text := p, imageUrl := missingPayloadPlaceholder })) ∧
    missingPayloadPlaceholder ≠ failurePlaceholder := by
  constructor
  · refine ⟨imageLoop env 0 pd, ?_, imageLoop_length env 0 pd, ?_⟩
    · unfold generateKidArticle
      rw [generateKidArticleRun_of_textPhase_ok env topic pd hpd]
    · rw [imageLoop_getElem?, Nat.zero_add]
      cases hgk : pd[k]? with
      | none => rfl
      | some p => simp [imageStep, hok, hfind]
  · decide

/-- Witness for C4: image call 1 succeeds with no inline payload, entry 1
carries the missing-payload placeholder. -/
theorem image_missing_payload_placeholder_witness :
    textPhase envOneMissing = .ok ["a", "b", "c", "d", "e"] ∧
    1 < (["a", "b", "c", "d", "e"] : List String).length ∧
    envOneMissing.imageCall 1 = .ok (some []) ∧
    ((some ([] : List ImagePart)).getD []).find? (fun part => part.inlineData.isSome) = none ∧
    ((∃ arts, generateKidArticle envOneMissing "space" = .ok arts ∧
      arts.length = (["a", "b", "c", "d", "e"] : List String).length ∧
      arts[1]? = (["a", "b", "c", "d", "e"] : List String)[1]?.map
        (fun p => { text := p, imageUrl := missingPayloadPlaceholder })) ∧
    missingPayloadPlaceholder ≠ failurePlaceholder) :=
  ⟨rfl, by decide, rfl, rfl,
    image_missing_payload_placeholder envOneMissing "space" ["a", "b", "c", "d", "e"] 1
      (some []) rfl (by decide) rfl rfl⟩

/-- C5: on a parse failure the fallback produces exactly the lines of the
raw response that are non-empty after trimming, one paragraph per line;
with fewer than 5 such lines the run fails with an error carrying the raw
response. -/
theorem fallback_line_split (env : Env) (reply : TextReply)
    (hkey : keyMissing env.apiKey = false)
    (hcall : env.textCall = .ok reply)
    (hne : reply.text ≠ "")
    (hparse : reply.parsed = none) :
    (5 ≤ ((jsSplitNewline reply.text).filter (fun line => 0 < (jsTrim line).length)).length →
        textPhase env =
          .ok ((jsSplitNewline reply.text).filter (fun line => 0 < (jsTrim line).length))) ∧
    (((jsSplitNewline reply.text).filter (fun line => 0 < (jsTrim line).length)).length < 5 →
        textPhase env =
          .error ("Failed to parse article text or generate enough paragraphs. Raw response: "
            ++ reply.text)) := by
  have htp : textPhase env = fallbackResult reply.text := by
    unfold textPhase textPhaseReply
    rw [hkey, hcall]
    simp [hne, hparse]
  constructor
  · intro hge
    rw [htp]
    unfold fallbackResult
    rw [if_neg (by rw [fallbackParagraphs_eq]; omega), fallbackParagraphs_eq]
  · intro hlt
    rw [htp]
    unfold fallbackResult
    rw [if_pos (by rw [fallbackParagraphs_eq]; omega)]

/-- Witness for C5 at a raw response of 5 non-empty lines. -/
theorem fallback_line_split_witness :
    keyMissing envFallbackOk.apiKey = false ∧
    envFallbackOk.textCall = .ok { text := "one\ntwo\nthree\nfour\nfive", parsed := none } ∧
    ("one\ntwo\nthree\nfour\nfive" : String) ≠ "" ∧
    ((5 ≤ ((jsSplitNewline "one\ntwo\nthree\nfour\nfive").filter
          (fun line => 0 < (jsTrim line).length)).length →
        textPhase envFallbackOk =
          .ok ((jsSplitNewline "one\ntwo\nthree\nfour\nfive").filter
            (fun line => 0 < (jsTrim line).length))) ∧
    (((jsSplitNewline "one\ntwo\nthree\nfour\nfive").filter
          (fun line => 0 < (jsTrim line).length)).length < 5 →
        textPhase envFallbackOk =
          .error ("Failed to parse article text or generate enough paragraphs. Raw response: "
            ++ "one\ntwo\nthree\nfour\nfive"))) :=
  ⟨rfl, rfl, by decide,
    fallback_line_split envFallbackOk { text := "one\ntwo\nthree\nfour\nfive", parsed := none }
      rfl rfl (by decide) rfl⟩

/-- C8: an empty text response is fatal before any parsing, fallback
splitting or image request — the run ends with the dedicated error, one
text call and zero image calls, whatever the parse outcome would be. -/
theorem empty_text_fatal (env : Env) (topic : String) (reply : TextReply)
    (hkey : keyMissing env.apiKey = false)
    (hcall : env.textCall = .ok reply)
    (ht : reply.text = "") :
    generateKidArticleRun env topic =
      ⟨.error "Failed to get article text from Gemini API.", 1, 0⟩ := by
  have htp : textPhase env = .error "Failed to get article text from Gemini API." := by
    unfold textPhase textPhaseReply
    rw [hkey, hcall]
    simp [ht]
  unfold generateKidArticleRun
  rw [htp, hkey]
  simp

/-- Witness for C8 at a concrete empty-text reply. -/
theorem empty_text_fatal_witness :
    keyMissing envEmptyText.apiKey = false ∧
    envEmptyText.textCall = .ok { text := "", parsed := none } ∧
    generateKidArticleRun envEmptyText "space" =
      ⟨.error "Failed to get article text from Gemini API.", 1, 0⟩ :=
  ⟨rfl, rfl,
    empty_text_fatal envEmptyText "space" { text := "", parsed := none } rfl rfl rfl⟩

/-- C6: with the credential missing, every generation function — article
generation, standalone image generation, image editing and quick answer —
fails immediately with the configuration error and issues zero remote
calls. -/
theorem missing_credential_config_error (envA : Env) (envI envE : SimpleEnv)
    (envQ : QuickEnv) (topic prompt imgData imgMime editPrompt question : String)
    (sz : ImageSize)
    (hA : keyMissing envA.apiKey = true) (hI : keyMissing envI.apiKey = true)
    (hE : keyMissing envE.apiKey = true) (hQ : keyMissing envQ.apiKey = true) :
    generateKidArticleRun envA topic = ⟨.error configErrorMessage, 0, 0⟩ ∧
    generateImageRun envI prompt sz = (.error configErrorMessage, 0) ∧
    editImageRun envE imgData imgMime editPrompt = (.error configErrorMessage, 0) ∧
    getQuickResponseRun envQ question = (.error configErrorMessage, 0) := by
  refine ⟨?_, ?_, ?_, ?_⟩
  · have htp : textPhase envA = .error configErrorMessage := by
      unfold textPhase
      rw [hA]
      simp
    unfold generateKidArticleRun
    rw [htp, hA]
    simp
  · unfold generateImageRun
    rw [hI]
    simp
  · unfold editImageRun
    rw [hE]
    simp
  · unfold getQuickResponseRun
    rw [hQ]
    simp

/-- Witness for C6 at concrete credential-less environments. -/
theorem missing_credential_config_error_witness :
    keyMissing envNoKeyA.apiKey = true ∧
    keyMissing envNoKeyI.apiKey = true ∧
    keyMissing envNoKeyE.apiKey = true ∧
    keyMissing envNoKeyQ.apiKey = true ∧
    (generateKidArticleRun envNoKeyA "space" = ⟨.error configErrorMessage, 0, 0⟩ ∧
    generateImageRun envNoKeyI "a whale" ImageSize.size1K = (.error configErrorMessage, 0) ∧
    editImageRun envNoKeyE "QUJD" "image/png" "add a hat" = (.error configErrorMessage, 0) ∧
    getQuickResponseRun envNoKeyQ "why is the sky blue" = (.error configErrorMessage, 0)) :=
  ⟨rfl, rfl, rfl, rfl,
    missing_credential_config_error envNoKeyA envNoKeyI envNoKeyE envNoKeyQ
      "space" "a whale" "QUJD" "image/png" "add a hat" "why is the sky blue"
      ImageSize.size1K rfl rfl rfl rfl⟩

/-- C7: a topic that is empty after trimming is rejected by the
generate-article entry point before any remote request: the error message
is set and zero text and image calls are issued. -/
theorem empty_topic_rejected (env : Env) (topic : String)
    (h : jsTrim topic = "") :
    handleGenerateArticleRun env topic =
      ⟨.errorSet "Please enter a current event topic to generate an article.", 0, 0⟩ := by
  unfold handleGenerateArticleRun
  rw [if_pos h]

/-- Witness for C7 at a whitespace-only topic. -/
theorem empty_topic_rejected_witness :
    jsTrim "   " = "" ∧
    handleGenerateArticleRun envAllOk "   " =
      ⟨.errorSet "Please enter a current event topic to generate an article.", 0, 0⟩ :=
  ⟨by decide, empty_topic_rejected envAllOk "   " (by decide)⟩

/-- C9: with the credential configured, `getQuickResponse` returns the
remote text when it is non-empty, the fixed fallback string when the
response text is empty, and fails with the wrapped error (never the
fallback) when the remote call throws. -/
theorem quick_response_spec (env : QuickEnv) (prompt : String)
    (hkey : keyMissing env.apiKey = false) :
    (∀ t, env.call = .ok t → t ≠ "" →
        getQuickResponseRun env prompt = (.ok t, 1)) ∧
    (env.call = .ok "" →
        getQuickResponseRun env prompt = (.ok quickFallback, 1)) ∧
    (∀ msg, env.call = .error msg →
        getQuickResponseRun env prompt =
          (.error ("Failed to get quick response: " ++ msg), 1)) := by
  refine ⟨?_, ?_, ?_⟩
  · intro t hc hne
    unfold getQuickResponseRun
    rw [hkey, hc]
    simp [hne]
  · intro hc
    unfold getQuickResponseRun
    rw [hkey, hc]
    simp
  · intro msg hc
    unfold getQuickResponseRun
    rw [hkey, hc]
    simp

/-- Witness for C9 at a configured environment with a non-empty reply. -/
theorem quick_response_spec_witness :
    keyMissing envQuickOk.apiKey = false ∧
    ((∀ t, envQuickOk.call = .ok t → t ≠ "" →
        getQuickResponseRun envQuickOk "bees" = (.ok t, 1)) ∧
    (envQuickOk.call = .ok "" →
        getQuickResponseRun envQuickOk "bees" = (.ok quickFallback, 1)) ∧
    (∀ msg, envQuickOk.call = .error msg →
        getQuickResponseRun envQuickOk "bees" =
          (.error ("Failed to get quick response: " ++ msg), 1))) :=
  ⟨rfl, quick_response_spec envQuickOk "bees" rfl⟩

/-- C2 evaluation: a text response that parses successfully as an array of
only 3 paragraphs is NOT fatal — the catch block catches the in-`try`
`throw` and applies the line-split fallback to the raw response, so the
run proceeds to issue 5 image requests and returns the 5 raw lines as
paragraphs. -/
theorem parsed_short_array_not_fatal :
    (generateKidArticleRun envShortArray "space").result =
      .ok (["[", "\x7b\"paragraph\": \"a\"\x7d,", "\x7b\"paragraph\": \"b\"\x7d,",
            "\x7b\"paragraph\": \"c\"\x7d", "]"].map
        (fun p => { text := p, imageUrl := failurePlaceholder })) ∧
    (generateKidArticleRun envShortArray "space").imageCalls = 5 := by
  constructor
  · rfl
  · rfl
